import Mathlib

/-!
Verification of the professor-aid data layer: the relational schema, the
row-level-security (RLS) policies, the provisioning and timestamp triggers
(all from the SQL migration files), and two client-side pure functions
(the sign-up form validation and the activity list filter).

Identifiers (UUIDs in the source) are modelled as `Nat`; timestamps
(`TIMESTAMP WITH TIME ZONE`) as `Nat`; dates as `Nat`.  Nullable columns
are `Option`.  The database is a record of lists of rows; each SQL
statement becomes a pure function on that record.
-/

namespace ProfessorAid

/-- Row of `auth.users` (the managed identity table): the trigger
`handle_new_user` reads `NEW.id`, `NEW.email` and
`NEW.raw_user_meta_data ->> 'full_name'`. -/
structure AuthUser where
  id : Nat
  email : String
  full_name_meta : Option String
  deriving DecidableEq

/-- Row of `public.profiles`. -/
structure Profile where
  id : Nat
  user_id : Nat
  nome : String
  email : String
  escola : Option String
  created_at : Nat
  updated_at : Nat
  deriving DecidableEq

/-- Row of `public.turmas`. -/
structure Turma where
  id : Nat
  professor_id : Nat
  nome : String
  ano_letivo : String
  periodo : Option String
  descricao : Option String
  created_at : Nat
  updated_at : Nat
  deriving DecidableEq

/-- Row of `public.atividades`. -/
structure Atividade where
  id : Nat
  turma_id : Nat
  titulo : String
  descricao : Option String
  data_entrega : Option Nat
  tipo : Option String
  status : Option String
  created_at : Nat
  updated_at : Nat
  deriving DecidableEq

/-- The database state: `auth.users` plus the three public tables. -/
structure DB where
  users : List AuthUser
  profiles : List Profile
  turmas : List Turma
  atividades : List Atividade
  deriving DecidableEq

/-! ### Row-level-security policies (part_003) -/

/-- Policy on `profiles` for SELECT / INSERT / UPDATE:
`auth.uid() = user_id`. -/
def profilesPolicy (uid : Nat) (p : Profile) : Bool :=
  uid == p.user_id

/-- No DELETE policy is created for `profiles` while
`ALTER TABLE public.profiles ENABLE ROW LEVEL SECURITY` is in force, so the
default-deny rule applies: no row ever qualifies for a direct DELETE. -/
def profilesDeletePolicy (_uid : Nat) (_p : Profile) : Bool :=
  false

/-- Policy on `turmas` for SELECT / INSERT / UPDATE / DELETE:
`professor_id IN (SELECT id FROM public.profiles WHERE user_id = auth.uid())`. -/
def turmasPolicy (db : DB) (uid : Nat) (t : Turma) : Bool :=
  db.profiles.any fun p => p.id == t.professor_id && p.user_id == uid

/-- Policy on `atividades` for SELECT / INSERT / UPDATE / DELETE:
`turma_id IN (SELECT t.id FROM turmas t JOIN profiles p
ON t.professor_id = p.id WHERE p.user_id = auth.uid())`. -/
def atividadesPolicy (db : DB) (uid : Nat) (a : Atividade) : Bool :=
  db.turmas.any fun t =>
    t.id == a.turma_id &&
      db.profiles.any fun p => p.id == t.professor_id && p.user_id == uid

/-! ### SELECT, filtered by RLS -/

/-- SELECT on `profiles` with a caller-supplied WHERE predicate `q`:
RLS keeps only rows passing `profilesPolicy`. -/
def selectProfiles (db : DB) (uid : Nat) (q : Profile → Bool) : List Profile :=
  db.profiles.filter fun p => q p && profilesPolicy uid p

/-- SELECT on `turmas` with a caller-supplied WHERE predicate `q`. -/
def selectTurmas (db : DB) (uid : Nat) (q : Turma → Bool) : List Turma :=
  db.turmas.filter fun t => q t && turmasPolicy db uid t

/-- SELECT on `atividades` with a caller-supplied WHERE predicate `q`. -/
def selectAtividades (db : DB) (uid : Nat) (q : Atividade → Bool) : List Atividade :=
  db.atividades.filter fun a => q a && atividadesPolicy db uid a

/-! ### Timestamp maintenance trigger (update_updated_at_column) -/

/-- `update_updated_at_column` on a `profiles` row:
`NEW.updated_at = now(); RETURN NEW;`. -/
def update_updated_at_profile (new : Profile) (now : Nat) : Profile :=
  { new with updated_at := now }

/-- `update_updated_at_column` on a `turmas` row. -/
def update_updated_at_turma (new : Turma) (now : Nat) : Turma :=
  { new with updated_at := now }

/-- `update_updated_at_column` on an `atividades` row. -/
def update_updated_at_atividade (new : Atividade) (now : Nat) : Atividade :=
  { new with updated_at := now }

/-! ### UPDATE: RLS filters the affected rows, the BEFORE UPDATE trigger
stamps `updated_at` on each row actually written. -/

/-- UPDATE on `profiles`: rows matching `q` and the RLS policy are replaced
by `f` row, re-stamped by the trigger; all other rows are untouched. -/
def updateProfiles (db : DB) (uid : Nat) (q : Profile → Bool)
    (f : Profile → Profile) (now : Nat) : DB :=
  { db with
    profiles := db.profiles.map fun p =>
      if q p && profilesPolicy uid p then update_updated_at_profile (f p) now
      else p }

/-- UPDATE on `turmas`. -/
def updateTurmas (db : DB) (uid : Nat) (q : Turma → Bool)
    (f : Turma → Turma) (now : Nat) : DB :=
  { db with
    turmas := db.turmas.map fun t =>
      if q t && turmasPolicy db uid t then update_updated_at_turma (f t) now
      else t }

/-- UPDATE on `atividades`. -/
def updateAtividades (db : DB) (uid : Nat) (q : Atividade → Bool)
    (f : Atividade → Atividade) (now : Nat) : DB :=
  { db with
    atividades := db.atividades.map fun a =>
      if q a && atividadesPolicy db uid a then update_updated_at_atividade (f a) now
      else a }

/-! ### DELETE: RLS filters the affected rows; `ON DELETE CASCADE`
removes dependent rows in the same step. -/

/-- DELETE on `profiles`: RLS is enabled and no DELETE policy exists, so
the qualifying set is always empty. -/
def deleteProfiles (db : DB) (uid : Nat) (q : Profile → Bool) : DB :=
  { db with
    profiles := db.profiles.filter fun p => !(q p && profilesDeletePolicy uid p) }

/-- DELETE on `turmas`: removes the qualifying turmas and, via
`atividades.turma_id REFERENCES turmas(id) ON DELETE CASCADE`, every
atividade of a removed turma, in one atomic step. -/
def deleteTurmas (db : DB) (uid : Nat) (q : Turma → Bool) : DB :=
  { db with
    turmas := db.turmas.filter fun t => !(q t && turmasPolicy db uid t),
    atividades := db.atividades.filter fun a =>
      !((db.turmas.filter fun t => q t && turmasPolicy db uid t).any
        fun t => t.id == a.turma_id) }

/-- DELETE on `atividades`. -/
def deleteAtividades (db : DB) (uid : Nat) (q : Atividade → Bool) : DB :=
  { db with
    atividades := db.atividades.filter fun a => !(q a && atividadesPolicy db uid a) }

/-! ### Provisioning trigger (handle_new_user) and identity lifecycle -/

/-- Body of `handle_new_user`: inserts into `public.profiles` a row with
`user_id = NEW.id`,
`nome = COALESCE(NEW.raw_user_meta_data ->> 'full_name', 'Professor')`,
`email = NEW.email`; the remaining columns take their defaults. -/
def handle_new_user (db : DB) (new : AuthUser) (newProfileId now : Nat) : DB :=
  { db with
    profiles := db.profiles ++
      [{ id := newProfileId
         user_id := new.id
         nome := new.full_name_meta.getD "Professor"
         email := new.email
         escola := none
         created_at := now
         updated_at := now }] }

/-- Creation of a new identity: the insert into `auth.users` and the
`AFTER INSERT` trigger `on_auth_user_created` run in the same transaction,
modelled as a single function. -/
def createIdentity (db : DB) (u : AuthUser) (newProfileId now : Nat) : DB :=
  handle_new_user { db with users := db.users ++ [u] } u newProfileId now

/-- Deletion of an identity: removes the `auth.users` row; the chain of
`ON DELETE CASCADE` foreign keys (`profiles.user_id → auth.users.id`,
`turmas.professor_id → profiles.id`, `atividades.turma_id → turmas.id`)
removes the dependent rows in the same transaction. -/
def deadProfiles (db : DB) (uid : Nat) : List Profile :=
  db.profiles.filter fun p => p.user_id == uid

def deadTurmas (db : DB) (uid : Nat) : List Turma :=
  db.turmas.filter fun t => (deadProfiles db uid).any fun p => p.id == t.professor_id

def deleteIdentity (db : DB) (uid : Nat) : DB :=
  { users := db.users.filter fun u => !(u.id == uid)
    profiles := db.profiles.filter fun p => !(p.user_id == uid)
    turmas := db.turmas.filter fun t =>
      !((deadProfiles db uid).any fun p => p.id == t.professor_id)
    atividades := db.atividades.filter fun a =>
      !((deadTurmas db uid).any fun t => t.id == a.turma_id) }

/-! ### INSERT with CHECK constraints and RLS WITH CHECK -/

/-- Errors surfaced by an insert: a violated CHECK/UNIQUE constraint, or a
row rejected by the RLS WITH CHECK policy. -/
inductive InsertError where
  | ConstraintViolation
  | RLSViolation
  deriving DecidableEq

/-- `CHECK (tipo IN ('tarefa','prova','projeto','exercicio','trabalho'))`:
a NULL value does not violate a SQL CHECK constraint. -/
def tipoAllowed : Option String → Bool
  | none => true
  | some s => ["tarefa", "prova", "projeto", "exercicio", "trabalho"].contains s

/-- `CHECK (status IN ('ativa','finalizada','cancelada'))`. -/
def statusAllowed : Option String → Bool
  | none => true
  | some s => ["ativa", "finalizada", "cancelada"].contains s

/-- Caller-supplied columns of an INSERT into `atividades`.  For the two
constrained columns the outer `Option` distinguishes an omitted column
(`none`) from a supplied value, so column defaults can apply. -/
structure AtividadeInsert where
  turma_id : Nat
  titulo : String
  descricao : Option String
  data_entrega : Option Nat
  tipo : Option (Option String)
  status : Option (Option String)
  deriving DecidableEq

/-- The row an `AtividadeInsert` produces: `tipo` has no default (omitted
means NULL); `status` has `DEFAULT 'ativa'`; `created_at` and `updated_at`
default to `now()`. -/
def mkAtividade (ins : AtividadeInsert) (newId now : Nat) : Atividade :=
  { id := newId
    turma_id := ins.turma_id
    titulo := ins.titulo
    descricao := ins.descricao
    data_entrega := ins.data_entrega
    tipo := ins.tipo.getD none
    status := ins.status.getD (some "ativa")
    created_at := now
    updated_at := now }

/-- INSERT into `atividades`: the CHECK constraints on `tipo` and `status`
must hold and the RLS WITH CHECK policy must accept the new row; on
success the row is appended. -/
def insertAtividade (db : DB) (uid : Nat) (ins : AtividadeInsert)
    (newId now : Nat) : Except InsertError DB :=
  if !(tipoAllowed (mkAtividade ins newId now).tipo &&
        statusAllowed (mkAtividade ins newId now).status) then
    .error .ConstraintViolation
  else if !(atividadesPolicy db uid (mkAtividade ins newId now)) then
    .error .RLSViolation
  else
    .ok { db with atividades := db.atividades ++ [mkAtividade ins newId now] }

/-- Caller-supplied columns of an INSERT into `profiles`. -/
structure ProfileInsert where
  user_id : Nat
  nome : String
  email : String
  escola : Option String
  deriving DecidableEq

/-- The row a `ProfileInsert` produces. -/
def mkProfile (ins : ProfileInsert) (newId now : Nat) : Profile :=
  { id := newId
    user_id := ins.user_id
    nome := ins.nome
    email := ins.email
    escola := ins.escola
    created_at := now
    updated_at := now }

/-- INSERT into `profiles`: the UNIQUE constraint on `user_id` must hold
and the RLS WITH CHECK policy (`auth.uid() = user_id`) must accept the
new row. -/
def insertProfile (db : DB) (uid : Nat) (ins : ProfileInsert)
    (newId now : Nat) : Except InsertError DB :=
  if db.profiles.any (fun p => p.user_id == (mkProfile ins newId now).user_id) then
    .error .ConstraintViolation
  else if !(profilesPolicy uid (mkProfile ins newId now)) then
    .error .RLSViolation
  else
    .ok { db with profiles := db.profiles ++ [mkProfile ins newId now] }

/-! ### Client-side pure functions (part_000, part_001) -/

/-- The `Turma` interface of the activities manager component. -/
structure ClientTurma where
  id : String
  nome : String
  ano_letivo : String
  periodo : String
  descricao : Option String
  created_at : String
  deriving DecidableEq

/-- The `Atividade` interface of the activities manager component. -/
structure ClientAtividade where
  id : String
  titulo : String
  descricao : Option String
  data_entrega : Option String
  tipo : String
  status : String
  turma_id : String
  turma : ClientTurma
  created_at : Option String
  deriving DecidableEq

/-- `filteredAtividades`: keeps an activity when the turma filter is
`"all"` or matches its `turma_id`, and the status filter is `"all"` or
matches its `status`. -/
def filteredAtividades (atividades : List ClientAtividade)
    (filterTurma filterStatus : String) : List ClientAtividade :=
  atividades.filter fun atividade =>
    (filterTurma == "all" || atividade.turma_id == filterTurma) &&
      (filterStatus == "all" || atividade.status == filterStatus)

/-- Outcome of a `handleSignUp` submission: either an early return showing
a validation toast (no backend call), or a `supabase.auth.signUp` request
with the given credentials and `full_name` metadata. -/
inductive SignUpOutcome where
  | blockedMissingFields
  | blockedShortPassword
  | requested (email password fullName : String)
  deriving DecidableEq

/-- `handleSignUp` validation: an empty `email`, `password` or `fullName`
(JavaScript falsiness of a string) returns early; then a password shorter
than 6 characters returns early; otherwise the sign-up request is issued. -/
def handleSignUp (email password fullName : String) : SignUpOutcome :=
  if email == "" || password == "" || fullName == "" then
    .blockedMissingFields
  else if password.length < 6 then
    .blockedShortPassword
  else
    .requested email password fullName

/-! ### Concrete fixtures for witnesses -/

/-- Example identity. -/
def uEx : AuthUser :=
  { id := 10, email := "ana@escola.br", full_name_meta := some "Ana" }

/-- Example second identity. -/
def uEx2 : AuthUser :=
  { id := 20, email := "bia@escola.br", full_name_meta := none }

/-- Example profile owned by `uEx`. -/
def pEx : Profile :=
  { id := 1, user_id := 10, nome := "Ana", email := "ana@escola.br"
    escola := none, created_at := 0, updated_at := 0 }

/-- Example profile owned by `uEx2`. -/
def pEx2 : Profile :=
  { id := 2, user_id := 20, nome := "Professor", email := "bia@escola.br"
    escola := none, created_at := 0, updated_at := 0 }

/-- Example turma owned by `pEx`. -/
def tEx : Turma :=
  { id := 5, professor_id := 1, nome := "5º Ano A", ano_letivo := "2025"
    periodo := some "matutino", descricao := none
    created_at := 0, updated_at := 0 }

/-- Example atividade in `tEx`. -/
def aEx : Atividade :=
  { id := 7, turma_id := 5, titulo := "Prova de Matemática"
    descricao := none, data_entrega := some 100, tipo := some "prova"
    status := some "ativa", created_at := 0, updated_at := 0 }

/-- Example identity not yet present in `dbEx`. -/
def uEx3 : AuthUser :=
  { id := 30, email := "carla@escola.br", full_name_meta := some "Carla" }

/-- Example database with two identities, two profiles, one turma of the
first profile and one atividade in it. -/
def dbEx : DB :=
  { users := [uEx, uEx2]
    profiles := [pEx, pEx2]
    turmas := [tEx]
    atividades := [aEx] }

/-- Example client-side turma. -/
def ctEx : ClientTurma :=
  { id := "t1", nome := "5º Ano A", ano_letivo := "2025"
    periodo := "matutino", descricao := none, created_at := "0" }

/-- Example client-side atividade shown by the activities manager. -/
def caEx : ClientAtividade :=
  { id := "a1", titulo := "Prova de Matemática", descricao := none
    data_entrega := none, tipo := "prova", status := "ativa"
    turma_id := "t1", turma := ctEx, created_at := none }

/-! ## Helper lemmas -/

/-- In a list whose keys are pairwise distinct, two members with equal keys
are the same element. -/
theorem eq_of_mem_of_key_eq {α : Type} {key : α → Nat} {l : List α}
    (h : l.Pairwise fun a b => key a ≠ key b) {a b : α}
    (ha : a ∈ l) (hb : b ∈ l) (hk : key a = key b) : a = b := by
  by_contra hne
  exact List.Pairwise.forall (fun _ _ hxy => Ne.symm hxy) h ha hb hne hk

/-- A map that fixes every element of a list is the identity on it. -/
theorem map_eq_self_of_fix {α : Type} {f : α → α} {l : List α}
    (h : ∀ a ∈ l, f a = a) : l.map f = l :=
  (List.map_congr_left h).trans (List.map_id l)

/-- Boolean equality of distinct naturals is `false`. -/
theorem nat_beq_false {a b : Nat} (h : a ≠ b) : (a == b) = false := by
  simpa using h

/-- The turmas policy accepts the owning profile's identity. -/
theorem turmasPolicy_owner (db : DB) (P : Profile) (C : Turma)
    (hP : P ∈ db.profiles) (hown : C.professor_id = P.id) :
    turmasPolicy db P.user_id C = true := by
  unfold turmasPolicy
  rw [List.any_eq_true]
  exact ⟨P, hP, by simp [hown]⟩

/-- With pairwise-distinct profile ids, the turmas policy holds exactly for
the owning profile's identity. -/
theorem turmasPolicy_eq (db : DB) (P : Profile) (C : Turma) (uid : Nat)
    (hpid : db.profiles.Pairwise fun p q => p.id ≠ q.id)
    (hP : P ∈ db.profiles) (hown : C.professor_id = P.id) :
    turmasPolicy db uid C = (uid == P.user_id) := by
  by_cases h : uid = P.user_id
  · subst h
    simp [turmasPolicy_owner db P C hP hown]
  · have hfalse : turmasPolicy db uid C = false := by
      rw [Bool.eq_false_iff]
      intro hany
      unfold turmasPolicy at hany
      rw [List.any_eq_true] at hany
      obtain ⟨p, hp, hcond⟩ := hany
      simp only [Bool.and_eq_true, beq_iff_eq] at hcond
      obtain ⟨hid, huser⟩ := hcond
      have hpP : p = P := eq_of_mem_of_key_eq hpid hp hP (by rw [hid, hown])
      exact h (by rw [← hpP, huser])
    rw [hfalse]
    exact (nat_beq_false h).symm

/-- With pairwise-distinct profile and turma ids, the atividades policy on a
row of turma `T` owned by profile `P` holds exactly for `P`'s identity. -/
theorem atividadesPolicy_eq (db : DB) (P : Profile) (T : Turma) (a : Atividade)
    (uid : Nat)
    (hpid : db.profiles.Pairwise fun p q => p.id ≠ q.id)
    (htid : db.turmas.Pairwise fun s t => s.id ≠ t.id)
    (hP : P ∈ db.profiles) (hT : T ∈ db.turmas)
    (hpt : T.professor_id = P.id) (hta : a.turma_id = T.id) :
    atividadesPolicy db uid a = (uid == P.user_id) := by
  by_cases h : uid = P.user_id
  · subst h
    have : atividadesPolicy db P.user_id a = true := by
      unfold atividadesPolicy
      rw [List.any_eq_true]
      refine ⟨T, hT, ?_⟩
      simp only [Bool.and_eq_true, beq_iff_eq]
      refine ⟨hta.symm, ?_⟩
      rw [List.any_eq_true]
      exact ⟨P, hP, by simp [hpt]⟩
    simp [this]
  · have hfalse : atividadesPolicy db uid a = false := by
      rw [Bool.eq_false_iff]
      intro hany
      unfold atividadesPolicy at hany
      rw [List.any_eq_true] at hany
      obtain ⟨t, ht, hcond⟩ := hany
      simp only [Bool.and_eq_true, beq_iff_eq] at hcond
      obtain ⟨htaid, hinner⟩ := hcond
      rw [List.any_eq_true] at hinner
      obtain ⟨p, hp, hcond2⟩ := hinner
      simp only [Bool.and_eq_true, beq_iff_eq] at hcond2
      obtain ⟨hid, huser⟩ := hcond2
      have htT : t = T := eq_of_mem_of_key_eq htid ht hT (htaid.trans hta)
      have hpP : p = P := eq_of_mem_of_key_eq hpid hp hP (by rw [hid, htT, hpt])
      exact h (by rw [← hpP, huser])
    rw [hfalse]
    exact (nat_beq_false h).symm

/-! ## Claims -/

/-- C1: for every Profile `P` and Class `C` with `C.professor_id = P.id`, a
caller authenticated as `P`'s owning identity can SELECT, UPDATE and DELETE
`C`, while a caller authenticated as any other identity sees zero rows on
SELECT of `C` and affects zero rows on UPDATE or DELETE of `C`; read
results are independent of Class rows outside the caller's ownership
chain. -/
theorem turmas_rls_owner_only (db : DB) (P : Profile) (C : Turma)
    (hpid : db.profiles.Pairwise fun p q => p.id ≠ q.id)
    (htid : db.turmas.Pairwise fun s t => s.id ≠ t.id)
    (hP : P ∈ db.profiles) (hC : C ∈ db.turmas)
    (hown : C.professor_id = P.id) :
    (C ∈ selectTurmas db P.user_id fun _ => true)
    ∧ (∀ f now, update_updated_at_turma (f C) now ∈
        (updateTurmas db P.user_id (fun t => t.id == C.id) f now).turmas)
    ∧ (C ∉ (deleteTurmas db P.user_id fun t => t.id == C.id).turmas)
    ∧ (∀ uid, uid ≠ P.user_id → C ∉ selectTurmas db uid fun _ => true)
    ∧ (∀ uid f now, uid ≠ P.user_id →
        updateTurmas db uid (fun t => t.id == C.id) f now = db)
    ∧ (∀ uid, uid ≠ P.user_id →
        deleteTurmas db uid (fun t => t.id == C.id) = db)
    ∧ (∀ uid t0, turmasPolicy db uid t0 = false →
        (selectTurmas { db with turmas := t0 :: db.turmas } uid fun _ => true)
          = selectTurmas db uid fun _ => true) := by
  have howner := turmasPolicy_owner db P C hP hown
  refine ⟨?_, ?_, ?_, ?_, ?_, ?_, ?_⟩
  · exact List.mem_filter.mpr ⟨hC, by simp [howner]⟩
  · intro f now
    unfold updateTurmas
    exact List.mem_map.mpr ⟨C, hC, by simp [howner]⟩
  · intro hmem
    unfold deleteTurmas at hmem
    have := (List.mem_filter.mp hmem).2
    simp [howner] at this
  · intro uid huid hmem
    have := (List.mem_filter.mp hmem).2
    rw [Bool.and_eq_true, turmasPolicy_eq db P C uid hpid hP hown] at this
    exact huid (by simpa using this.2)
  · intro uid f now huid
    unfold updateTurmas
    have hmap : (db.turmas.map fun t =>
        if (t.id == C.id) && turmasPolicy db uid t then
          update_updated_at_turma (f t) now
        else t) = db.turmas := by
      apply map_eq_self_of_fix
      intro t ht
      by_cases hid : t.id = C.id
      · have htC : t = C := eq_of_mem_of_key_eq htid ht hC hid
        rw [htC, turmasPolicy_eq db P C uid hpid hP hown, nat_beq_false huid]
        simp
      · rw [nat_beq_false hid]
        simp
    rw [hmap]
  · intro uid huid
    unfold deleteTurmas
    have hfalse : ∀ t ∈ db.turmas,
        ((t.id == C.id) && turmasPolicy db uid t) = false := by
      intro t ht
      by_cases hid : t.id = C.id
      · have htC : t = C := eq_of_mem_of_key_eq htid ht hC hid
        rw [htC, turmasPolicy_eq db P C uid hpid hP hown, nat_beq_false huid]
        simp
      · rw [nat_beq_false hid]
        simp
    have hdoomed : (db.turmas.filter fun t =>
        (t.id == C.id) && turmasPolicy db uid t) = [] := by
      rw [List.filter_eq_nil_iff]
      intro t ht
      simp [hfalse t ht]
    have hkeep : (db.turmas.filter fun t =>
        !((t.id == C.id) && turmasPolicy db uid t)) = db.turmas := by
      rw [List.filter_eq_self]
      intro t ht
      simp [hfalse t ht]
    rw [hdoomed, hkeep]
    simp
  · intro uid t0 hpol
    unfold selectTurmas
    have : turmasPolicy { db with turmas := t0 :: db.turmas } uid = turmasPolicy db uid := rfl
    rw [this]
    simp [List.filter_cons, hpol]

/-- Witness for C1 on the concrete fixture database: the owner of `tEx`
sees it; identity 20 deleting it changes nothing. -/
theorem turmas_rls_owner_only_witness :
    (tEx ∈ selectTurmas dbEx 10 fun _ => true)
    ∧ deleteTurmas dbEx 20 (fun t => t.id == tEx.id) = dbEx := by
  have h := turmas_rls_owner_only dbEx pEx tEx
    (by decide) (by decide) (by decide) (by decide) (by decide)
  exact ⟨h.1, h.2.2.2.2.2.1 20 (by decide)⟩

/-- C2: for every Assignment row, each of SELECT, INSERT, UPDATE and
DELETE is permitted exactly when the Assignment's owning Class's owning
Profile's owning-identity reference equals the caller's identity (the
two-hop join Assignment → Class → Profile); a distinct identity selecting
another teacher's Assignment obtains an empty result set. -/
theorem atividades_rls_two_hop (db : DB) (P : Profile) (T : Turma)
    (A : Atividade)
    (hpid : db.profiles.Pairwise fun p q => p.id ≠ q.id)
    (htid : db.turmas.Pairwise fun s t => s.id ≠ t.id)
    (haid : db.atividades.Pairwise fun x y => x.id ≠ y.id)
    (hP : P ∈ db.profiles) (hT : T ∈ db.turmas) (hA : A ∈ db.atividades)
    (hpt : T.professor_id = P.id) (hta : A.turma_id = T.id) :
    (∀ uid, (A ∈ selectAtividades db uid fun _ => true) ↔ uid = P.user_id)
    ∧ (∀ uid ins newId now, AtividadeInsert.turma_id ins = T.id →
        tipoAllowed (mkAtividade ins newId now).tipo = true →
        statusAllowed (mkAtividade ins newId now).status = true →
        ((∃ db2, insertAtividade db uid ins newId now = .ok db2) ↔
          uid = P.user_id))
    ∧ (∀ f now, update_updated_at_atividade (f A) now ∈
        (updateAtividades db P.user_id (fun a => a.id == A.id) f now).atividades)
    ∧ (∀ uid f now, uid ≠ P.user_id →
        updateAtividades db uid (fun a => a.id == A.id) f now = db)
    ∧ (A ∉ (deleteAtividades db P.user_id fun a => a.id == A.id).atividades)
    ∧ (∀ uid, uid ≠ P.user_id →
        deleteAtividades db uid (fun a => a.id == A.id) = db)
    ∧ (∀ uid, uid ≠ P.user_id →
        selectAtividades db uid (fun a => a.id == A.id) = []) := by
  have hpol : ∀ uid, atividadesPolicy db uid A = (uid == P.user_id) :=
    fun uid => atividadesPolicy_eq db P T A uid hpid htid hP hT hpt hta
  have hclose : ∀ a ∈ db.atividades, ∀ uid, uid ≠ P.user_id →
      ((a.id == A.id) && atividadesPolicy db uid a) = false := by
    intro a ha uid huid
    by_cases hid : a.id = A.id
    · have haA : a = A := eq_of_mem_of_key_eq haid ha hA hid
      rw [haA, hpol uid, nat_beq_false huid]
      simp
    · rw [nat_beq_false hid]
      simp
  refine ⟨?_, ?_, ?_, ?_, ?_, ?_, ?_⟩
  · intro uid
    constructor
    · intro hmem
      have := (List.mem_filter.mp hmem).2
      rw [Bool.and_eq_true, hpol uid] at this
      simpa using this.2
    · intro heq
      subst heq
      refine List.mem_filter.mpr ⟨hA, ?_⟩
      simp [hpol P.user_id]
  · intro uid ins newId now htid' htipo hstatus
    have hrowT : (mkAtividade ins newId now).turma_id = T.id := htid'
    have hpolrow : atividadesPolicy db uid (mkAtividade ins newId now) =
        (uid == P.user_id) :=
      atividadesPolicy_eq db P T (mkAtividade ins newId now) uid hpid htid
        hP hT hpt hrowT
    have hins : insertAtividade db uid ins newId now =
        (if uid == P.user_id then
          .ok { db with atividades := db.atividades ++ [mkAtividade ins newId now] }
        else .error .RLSViolation) := by
      unfold insertAtividade
      rw [htipo, hstatus, hpolrow]
      by_cases huid : uid = P.user_id
      · subst huid
        simp
      · rw [nat_beq_false huid]
        simp
    rw [hins]
    by_cases huid : uid = P.user_id
    · subst huid
      simp
    · rw [nat_beq_false huid]
      simp [huid]
  · intro f now
    unfold updateAtividades
    refine List.mem_map.mpr ⟨A, hA, ?_⟩
    simp [hpol P.user_id]
  · intro uid f now huid
    unfold updateAtividades
    have hmap : (db.atividades.map fun a =>
        if (a.id == A.id) && atividadesPolicy db uid a then
          update_updated_at_atividade (f a) now
        else a) = db.atividades := by
      apply map_eq_self_of_fix
      intro a ha
      rw [hclose a ha uid huid]
      simp
    rw [hmap]
  · intro hmem
    unfold deleteAtividades at hmem
    have := (List.mem_filter.mp hmem).2
    simp [hpol P.user_id] at this
  · intro uid huid
    unfold deleteAtividades
    have hkeep : (db.atividades.filter fun a =>
        !((a.id == A.id) && atividadesPolicy db uid a)) = db.atividades := by
      rw [List.filter_eq_self]
      intro a ha
      rw [hclose a ha uid huid]
      simp
    rw [hkeep]
  · intro uid huid
    unfold selectAtividades
    rw [List.filter_eq_nil_iff]
    intro a ha
    rw [hclose a ha uid huid]
    simp

/-- Witness for C2 on the concrete fixture database: the owner of `aEx`
sees it; identity 20's SELECT of it is empty. -/
theorem atividades_rls_two_hop_witness :
    (aEx ∈ selectAtividades dbEx 10 fun _ => true)
    ∧ selectAtividades dbEx 20 (fun a => a.id == aEx.id) = [] := by
  have h := atividades_rls_two_hop dbEx pEx tEx aEx
    (by decide) (by decide) (by decide) (by decide) (by decide) (by decide)
    (by decide) (by decide)
  exact ⟨(h.1 10).mpr (by decide), h.2.2.2.2.2.2 20 (by decide)⟩

/-- C3: creating an identity inserts, atomically with the creation, exactly
one Profile row owned by the new identity, whose display name is the
metadata full name when present and the default string `"Professor"` when
absent, and whose email is copied from the identity record; an identity
never exists without a Profile. -/
theorem createIdentity_provisions (db : DB) (u : AuthUser) (pid now : Nat)
    (hfresh : ∀ p ∈ db.profiles, p.user_id ≠ u.id) :
    ((createIdentity db u pid now).profiles.filter fun p => p.user_id == u.id) =
      [{ id := pid, user_id := u.id, nome := u.full_name_meta.getD "Professor"
         email := u.email, escola := none, created_at := now, updated_at := now }]
    ∧ (∀ n, u.full_name_meta = some n → u.full_name_meta.getD "Professor" = n)
    ∧ (u.full_name_meta = none → u.full_name_meta.getD "Professor" = "Professor")
    ∧ ((∀ v ∈ db.users, ∃ p ∈ db.profiles, p.user_id = v.id) →
        ∀ v ∈ (createIdentity db u pid now).users,
          ∃ p ∈ (createIdentity db u pid now).profiles, p.user_id = v.id) := by
  refine ⟨?_, ?_, ?_, ?_⟩
  · have h1 : (db.profiles.filter fun p => p.user_id == u.id) = [] :=
      List.filter_eq_nil_iff.mpr fun p hp => by simpa using hfresh p hp
    have hrow : (createIdentity db u pid now).profiles = db.profiles ++
        [{ id := pid, user_id := u.id, nome := u.full_name_meta.getD "Professor"
           email := u.email, escola := none, created_at := now
           updated_at := now }] := rfl
    rw [hrow, List.filter_append, h1]
    simp
  · intro n hn
    rw [hn]
    rfl
  · intro hn
    rw [hn]
    rfl
  · intro hinv v hv
    have hv' : v ∈ db.users ++ [u] := hv
    rcases List.mem_append.mp hv' with hold | hnew
    · obtain ⟨p, hp, hpu⟩ := hinv v hold
      exact ⟨p, List.mem_append_left _ hp, hpu⟩
    · have hvu : v = u := by simpa using hnew
      subst hvu
      exact ⟨{ id := pid, user_id := v.id
               nome := v.full_name_meta.getD "Professor", email := v.email
               escola := none, created_at := now, updated_at := now },
        List.mem_append_right _ (List.mem_singleton.mpr rfl), rfl⟩

/-- Witness for C3: creating identity 30 in the fixture database yields
exactly one profile owned by it, named from the metadata. -/
theorem createIdentity_provisions_witness :
    ((createIdentity dbEx uEx3 9 50).profiles.filter
        fun p => p.user_id == uEx3.id) =
      [{ id := 9, user_id := uEx3.id, nome := uEx3.full_name_meta.getD "Professor"
         email := uEx3.email, escola := none, created_at := 50, updated_at := 50 }] :=
  (createIdentity_provisions dbEx uEx3 9 50 (by decide)).1

/-- C4: deleting a Class removes it and, in the same step, every Assignment
referencing it; Assignments of other Classes survive, and referential
integrity from Assignments to Classes is preserved (no orphan, no
reachable half-cascaded state). -/
theorem deleteTurmas_cascade (db : DB) (P : Profile) (C : Turma)
    (htid : db.turmas.Pairwise fun s t => s.id ≠ t.id)
    (hP : P ∈ db.profiles) (hC : C ∈ db.turmas)
    (hown : C.professor_id = P.id) :
    (∀ t ∈ (deleteTurmas db P.user_id fun t => t.id == C.id).turmas,
      t.id ≠ C.id)
    ∧ (∀ a ∈ (deleteTurmas db P.user_id fun t => t.id == C.id).atividades,
        a.turma_id ≠ C.id)
    ∧ (∀ a ∈ db.atividades, a.turma_id ≠ C.id →
        a ∈ (deleteTurmas db P.user_id fun t => t.id == C.id).atividades)
    ∧ ((∀ a ∈ db.atividades, ∃ t ∈ db.turmas, t.id = a.turma_id) →
        ∀ a ∈ (deleteTurmas db P.user_id fun t => t.id == C.id).atividades,
          ∃ t ∈ (deleteTurmas db P.user_id fun t => t.id == C.id).turmas,
            t.id = a.turma_id) := by
  have howner := turmasPolicy_owner db P C hP hown
  have hCdoomed : C ∈ db.turmas.filter fun t =>
      (t.id == C.id) && turmasPolicy db P.user_id t :=
    List.mem_filter.mpr ⟨hC, by simp [howner]⟩
  refine ⟨?_, ?_, ?_, ?_⟩
  · intro t ht hid
    have htC : t = C :=
      eq_of_mem_of_key_eq htid (List.mem_of_mem_filter ht) hC hid
    have := (List.mem_filter.mp ht).2
    rw [htC] at this
    simp [howner] at this
  · intro a ha hid
    have hno := (List.mem_filter.mp ha).2
    rw [Bool.not_eq_true', List.any_eq_false] at hno
    exact hno C hCdoomed (by simp [hid])
  · intro a ha hid
    refine List.mem_filter.mpr ⟨ha, ?_⟩
    rw [Bool.not_eq_true', List.any_eq_false]
    intro t htmem hta
    have htc : t.id = C.id := by
      have := (List.mem_filter.mp htmem).2
      rw [Bool.and_eq_true] at this
      simpa using this.1
    simp only [beq_iff_eq] at hta
    rw [← hta] at hid
    exact hid htc
  · intro hinv a ha
    obtain ⟨t, ht, hta⟩ := hinv a (List.mem_of_mem_filter ha)
    have h2 := (List.mem_filter.mp ha).2
    rw [Bool.not_eq_true', List.any_eq_false] at h2
    refine ⟨t, ?_, hta⟩
    refine List.mem_filter.mpr ⟨ht, ?_⟩
    rw [Bool.not_eq_true']
    by_contra hne
    have hpred : ((t.id == C.id) && turmasPolicy db P.user_id t) = true := by
      cases hb : ((t.id == C.id) && turmasPolicy db P.user_id t)
      · exact absurd hb hne
      · rfl
    exact h2 t (List.mem_filter.mpr ⟨ht, hpred⟩) (by simp [hta])

/-- Witness for C4: after the owner deletes `tEx` from the fixture
database, no surviving Class or Assignment references `tEx`'s id. -/
theorem deleteTurmas_cascade_witness :
    (∀ t ∈ (deleteTurmas dbEx 10 fun t => t.id == tEx.id).turmas,
      t.id ≠ tEx.id)
    ∧ (∀ a ∈ (deleteTurmas dbEx 10 fun t => t.id == tEx.id).atividades,
        a.turma_id ≠ tEx.id) := by
  have h := deleteTurmas_cascade dbEx pEx tEx
    (by decide) (by decide) (by decide) (by decide)
  exact ⟨h.1, h.2.1⟩

/-- C5: deleting an identity removes the identity row, the Profile it owns,
every Class of that Profile and, transitively, every Assignment of those
Classes; rows outside the identity's ownership chain survive. -/
theorem deleteIdentity_cascade (db : DB) (uid : Nat) :
    (∀ u ∈ (deleteIdentity db uid).users, u.id ≠ uid)
    ∧ (∀ p ∈ (deleteIdentity db uid).profiles, p.user_id ≠ uid)
    ∧ (∀ t ∈ (deleteIdentity db uid).turmas,
        ∀ p ∈ db.profiles, p.user_id = uid → t.professor_id ≠ p.id)
    ∧ (∀ a ∈ (deleteIdentity db uid).atividades,
        ∀ t ∈ db.turmas, ∀ p ∈ db.profiles,
          p.user_id = uid → t.professor_id = p.id → a.turma_id ≠ t.id)
    ∧ (∀ p ∈ db.profiles, p.user_id ≠ uid →
        p ∈ (deleteIdentity db uid).profiles) := by
  refine ⟨?_, ?_, ?_, ?_, ?_⟩
  · intro u hu
    have := (List.mem_filter.mp hu).2
    simpa using this
  · intro p hp
    have := (List.mem_filter.mp hp).2
    simpa using this
  · intro t ht p hp hpu hpt
    have hno := (List.mem_filter.mp ht).2
    rw [Bool.not_eq_true', List.any_eq_false] at hno
    have hpdead : p ∈ deadProfiles db uid :=
      List.mem_filter.mpr ⟨hp, by simp [hpu]⟩
    exact hno p hpdead (by simp [hpt])
  · intro a ha t ht p hp hpu hpt hat
    have hno := (List.mem_filter.mp ha).2
    rw [Bool.not_eq_true', List.any_eq_false] at hno
    have hpdead : p ∈ deadProfiles db uid :=
      List.mem_filter.mpr ⟨hp, by simp [hpu]⟩
    have htdead : t ∈ deadTurmas db uid := by
      refine List.mem_filter.mpr ⟨ht, ?_⟩
      rw [List.any_eq_true]
      exact ⟨p, hpdead, by simp [hpt]⟩
    exact hno t htdead (by simp [hat])
  · intro p hp hpu
    exact List.mem_filter.mpr ⟨hp, by simpa using hpu⟩

/-- Witness for C5: deleting identity 10 from the fixture database keeps
the other teacher's profile. -/
theorem deleteIdentity_cascade_witness :
    pEx2 ∈ (deleteIdentity dbEx 10).profiles :=
  (deleteIdentity_cascade dbEx 10).2.2.2.2 pEx2 (by decide) (by decide)

/-- C6: on every update of a row in any of the three tables, the update
trigger stores `updated_at = now()` — a value at least the previous
`updated_at` when the clock has not moved backwards — and discards any
caller-supplied `updated_at`; every row an update operation writes carries
the new stamp. -/
theorem updated_at_maintenance (db : DB) (uid : Nat)
    (pOld pNew : Profile) (tOld tNew : Turma) (aOld aNew : Atividade)
    (now : Nat)
    (hp : pOld.updated_at ≤ now) (ht : tOld.updated_at ≤ now)
    (ha : aOld.updated_at ≤ now) :
    ((update_updated_at_profile pNew now).updated_at = now)
    ∧ (pOld.updated_at ≤ (update_updated_at_profile pNew now).updated_at)
    ∧ (∀ v, update_updated_at_profile { pNew with updated_at := v } now =
        update_updated_at_profile pNew now)
    ∧ ((update_updated_at_turma tNew now).updated_at = now)
    ∧ (tOld.updated_at ≤ (update_updated_at_turma tNew now).updated_at)
    ∧ (∀ v, update_updated_at_turma { tNew with updated_at := v } now =
        update_updated_at_turma tNew now)
    ∧ ((update_updated_at_atividade aNew now).updated_at = now)
    ∧ (aOld.updated_at ≤ (update_updated_at_atividade aNew now).updated_at)
    ∧ (∀ v, update_updated_at_atividade { aNew with updated_at := v } now =
        update_updated_at_atividade aNew now)
    ∧ (∀ q f, ∀ r ∈ (updateProfiles db uid q f now).profiles,
        r ∈ db.profiles ∨ r.updated_at = now)
    ∧ (∀ q f, ∀ r ∈ (updateTurmas db uid q f now).turmas,
        r ∈ db.turmas ∨ r.updated_at = now)
    ∧ (∀ q f, ∀ r ∈ (updateAtividades db uid q f now).atividades,
        r ∈ db.atividades ∨ r.updated_at = now) := by
  refine ⟨rfl, hp, fun v => rfl, rfl, ht, fun v => rfl, rfl, ha, fun v => rfl,
    ?_, ?_, ?_⟩
  · intro q f r hr
    obtain ⟨p, hpmem, hpr⟩ := List.mem_map.mp hr
    by_cases hcond : (q p && profilesPolicy uid p) = true
    · rw [if_pos hcond] at hpr
      exact Or.inr (by rw [← hpr]; rfl)
    · rw [if_neg hcond] at hpr
      exact Or.inl (hpr ▸ hpmem)
  · intro q f r hr
    obtain ⟨t, htmem, htr⟩ := List.mem_map.mp hr
    by_cases hcond : (q t && turmasPolicy db uid t) = true
    · rw [if_pos hcond] at htr
      exact Or.inr (by rw [← htr]; rfl)
    · rw [if_neg hcond] at htr
      exact Or.inl (htr ▸ htmem)
  · intro q f r hr
    obtain ⟨a, hamem, har⟩ := List.mem_map.mp hr
    by_cases hcond : (q a && atividadesPolicy db uid a) = true
    · rw [if_pos hcond] at har
      exact Or.inr (by rw [← har]; rfl)
    · rw [if_neg hcond] at har
      exact Or.inl (har ▸ hamem)

/-- Witness for C6: stamping the fixture profile at time 5 stores 5 and
dominates the previous stamp 0, whatever `updated_at` the caller wrote. -/
theorem updated_at_maintenance_witness :
    ((update_updated_at_profile pEx 5).updated_at = 5)
    ∧ (pEx.updated_at ≤ (update_updated_at_profile pEx 5).updated_at)
    ∧ (∀ v, update_updated_at_profile { pEx with updated_at := v } 5 =
        update_updated_at_profile pEx 5) := by
  have h := updated_at_maintenance dbEx 10 pEx pEx tEx tEx aEx aEx 5
    (by decide) (by decide) (by decide)
  exact ⟨h.1, h.2.1, h.2.2.1⟩

/-- C7: inserting an Assignment with `tipo` outside the allowed enumeration
fails with `ConstraintViolation` and inserts no row; with `tipo` omitted the
insert succeeds and stores NULL; `status` outside its enumeration likewise
fails, and an omitted `status` is stored as `'ativa'`. -/
theorem atividade_enum_constraints (db : DB) (uid : Nat)
    (ins : AtividadeInsert) (newId now : Nat) :
    (∀ s, ins.tipo = some (some s) →
      s ∉ ["tarefa", "prova", "projeto", "exercicio", "trabalho"] →
      insertAtividade db uid ins newId now = .error .ConstraintViolation)
    ∧ (ins.tipo = none →
        statusAllowed (mkAtividade ins newId now).status = true →
        atividadesPolicy db uid (mkAtividade ins newId now) = true →
        insertAtividade db uid ins newId now =
          .ok { db with atividades := db.atividades ++ [mkAtividade ins newId now] }
          ∧ (mkAtividade ins newId now).tipo = none)
    ∧ (∀ s, ins.status = some (some s) →
        s ∉ ["ativa", "finalizada", "cancelada"] →
        insertAtividade db uid ins newId now = .error .ConstraintViolation)
    ∧ (ins.status = none → (mkAtividade ins newId now).status = some "ativa") := by
  refine ⟨?_, ?_, ?_, ?_⟩
  · intro s hs hnotin
    have h1 : tipoAllowed (mkAtividade ins newId now).tipo = false := by
      show tipoAllowed (ins.tipo.getD none) = false
      rw [hs]
      show tipoAllowed (some s) = false
      unfold tipoAllowed
      simpa using hnotin
    unfold insertAtividade
    rw [h1]
    simp
  · intro htipo hst hpol
    have h1 : tipoAllowed (mkAtividade ins newId now).tipo = true := by
      show tipoAllowed (ins.tipo.getD none) = true
      rw [htipo]
      rfl
    refine ⟨?_, ?_⟩
    · unfold insertAtividade
      rw [h1, hst, hpol]
      simp
    · show ins.tipo.getD none = none
      rw [htipo]
      rfl
  · intro s hs hnotin
    have h2 : statusAllowed (mkAtividade ins newId now).status = false := by
      show statusAllowed (ins.status.getD (some "ativa")) = false
      rw [hs]
      show statusAllowed (some s) = false
      unfold statusAllowed
      simpa using hnotin
    unfold insertAtividade
    rw [h2]
    simp
  · intro hst
    show ins.status.getD (some "ativa") = some "ativa"
    rw [hst]
    rfl

/-- Witness for C7: in the fixture database the owner inserting an
atividade with `tipo = 'palestra'` gets a constraint violation, and an
omitted `tipo` with omitted `status` succeeds storing NULL and `'ativa'`. -/
theorem atividade_enum_constraints_witness :
    (insertAtividade dbEx 10
        { turma_id := 5, titulo := "Palestra", descricao := none
          data_entrega := none, tipo := some (some "palestra"), status := none }
        8 60 = .error .ConstraintViolation)
    ∧ (mkAtividade
        { turma_id := 5, titulo := "Sem tipo", descricao := none
          data_entrega := none, tipo := none, status := none } 8 60).tipo = none
    ∧ (mkAtividade
        { turma_id := 5, titulo := "Sem tipo", descricao := none
          data_entrega := none, tipo := none, status := none } 8 60).status =
        some "ativa" := by
  refine ⟨?_, ?_, ?_⟩
  · exact (atividade_enum_constraints dbEx 10
      { turma_id := 5, titulo := "Palestra", descricao := none
        data_entrega := none, tipo := some (some "palestra"), status := none }
      8 60).1 "palestra" rfl (by decide)
  · exact ((atividade_enum_constraints dbEx 10
      { turma_id := 5, titulo := "Sem tipo", descricao := none
        data_entrega := none, tipo := none, status := none }
      8 60).2.1 rfl (by decide) (by decide)).2
  · exact (atividade_enum_constraints dbEx 10
      { turma_id := 5, titulo := "Sem tipo", descricao := none
        data_entrega := none, tipo := none, status := none }
      8 60).2.2.2 rfl

/-- C8: on `profiles`, SELECT, INSERT and UPDATE are permitted exactly when
the row's owning-identity reference equals the caller's identity, and with
no DELETE policy under enabled row-level security a direct DELETE affects
zero rows for every caller. -/
theorem profiles_rls_no_delete (db : DB) (p : Profile)
    (hpid : db.profiles.Pairwise fun x y => x.id ≠ y.id)
    (hp : p ∈ db.profiles) :
    (∀ uid, (p ∈ selectProfiles db uid fun _ => true) ↔ uid = p.user_id)
    ∧ (∀ uid ins newId now, (∀ q ∈ db.profiles, q.user_id ≠ ins.user_id) →
        ((∃ db2, insertProfile db uid ins newId now = .ok db2) ↔
          uid = ins.user_id))
    ∧ (∀ f now, update_updated_at_profile (f p) now ∈
        (updateProfiles db p.user_id (fun r => r.id == p.id) f now).profiles)
    ∧ (∀ uid f now, uid ≠ p.user_id →
        updateProfiles db uid (fun r => r.id == p.id) f now = db)
    ∧ (∀ uid q, deleteProfiles db uid q = db) := by
  refine ⟨?_, ?_, ?_, ?_, ?_⟩
  · intro uid
    constructor
    · intro hmem
      have := (List.mem_filter.mp hmem).2
      simpa [profilesPolicy] using this
    · intro heq
      subst heq
      exact List.mem_filter.mpr ⟨hp, by simp [profilesPolicy]⟩
  · intro uid ins newId now hfresh
    have hany : (db.profiles.any
        fun q => q.user_id == (mkProfile ins newId now).user_id) = false := by
      rw [List.any_eq_false]
      intro x hx
      simpa using hfresh x hx
    have hpol : profilesPolicy uid (mkProfile ins newId now) =
        (uid == ins.user_id) := rfl
    unfold insertProfile
    rw [hany, hpol]
    by_cases huid : uid = ins.user_id
    · subst huid
      simp
    · rw [nat_beq_false huid]
      simp [huid]
  · intro f now
    unfold updateProfiles
    exact List.mem_map.mpr ⟨p, hp, by simp [profilesPolicy]⟩
  · intro uid f now huid
    unfold updateProfiles
    have hmap : (db.profiles.map fun r =>
        if (r.id == p.id) && profilesPolicy uid r then
          update_updated_at_profile (f r) now
        else r) = db.profiles := by
      apply map_eq_self_of_fix
      intro r hr
      by_cases hid : r.id = p.id
      · have hrp : r = p := eq_of_mem_of_key_eq hpid hr hp hid
        rw [hrp]
        simp [profilesPolicy, nat_beq_false huid]
      · rw [nat_beq_false hid]
        simp
    rw [hmap]
  · intro uid q
    unfold deleteProfiles
    have hkeep : (db.profiles.filter
        fun r => !(q r && profilesDeletePolicy uid r)) = db.profiles := by
      rw [List.filter_eq_self]
      intro r hr
      simp [profilesDeletePolicy]
    rw [hkeep]

/-- Witness for C8: in the fixture database the owner sees their profile
and a DELETE by any fixture caller leaves the database unchanged. -/
theorem profiles_rls_no_delete_witness :
    (pEx ∈ selectProfiles dbEx 10 fun _ => true)
    ∧ deleteProfiles dbEx 20 (fun _ => true) = dbEx := by
  have h := profiles_rls_no_delete dbEx pEx (by decide) (by decide)
  exact ⟨(h.1 10).mpr (by decide), h.2.2.2.2 20 (fun _ => true)⟩

/-- C9: a sign-up submission with an empty full name, email or password, or
a password of fewer than 6 characters, returns before any sign-up request
is issued to the backend. -/
theorem handleSignUp_blocks_invalid (email password fullName : String)
    (h : email = "" ∨ password = "" ∨ fullName = "" ∨ password.length < 6) :
    ∀ e p f, handleSignUp email password fullName ≠ .requested e p f := by
  intro e p f
  unfold handleSignUp
  by_cases h1 : (email == "" || password == "" || fullName == "") = true
  · rw [if_pos h1]
    simp
  · rw [if_neg h1]
    have h6 : password.length < 6 := by
      rcases h with h | h | h | h
      · exact absurd (by simp [h]) h1
      · exact absurd (by simp [h]) h1
      · exact absurd (by simp [h]) h1
      · exact h
    rw [if_pos h6]
    simp

/-- Witness for C9: a five-character password never reaches the sign-up
request. -/
theorem handleSignUp_blocks_invalid_witness :
    handleSignUp "ana@escola.br" "12345" "Ana" ≠
      .requested "ana@escola.br" "12345" "Ana" :=
  handleSignUp_blocks_invalid "ana@escola.br" "12345" "Ana"
    (Or.inr (Or.inr (Or.inr (by decide)))) "ana@escola.br" "12345" "Ana"

/-- C10: the filtered activity list contains exactly the activities whose
`turma_id` matches the turma filter (or that filter is `"all"`) and whose
`status` matches the status filter (or that filter is `"all"`); with both
filters `"all"` it equals the full list, and it is always a sublist of the
unchanged input list. -/
theorem filteredAtividades_correct (atividades : List ClientAtividade)
    (filterTurma filterStatus : String) :
    (∀ a, a ∈ filteredAtividades atividades filterTurma filterStatus ↔
      (a ∈ atividades ∧ (filterTurma = "all" ∨ a.turma_id = filterTurma)
        ∧ (filterStatus = "all" ∨ a.status = filterStatus)))
    ∧ filteredAtividades atividades "all" "all" = atividades
    ∧ (filteredAtividades atividades filterTurma filterStatus).Sublist
        atividades := by
  refine ⟨?_, ?_, List.filter_sublist _⟩
  · intro a
    unfold filteredAtividades
    rw [List.mem_filter]
    constructor
    · rintro ⟨ha, hcond⟩
      simp only [Bool.and_eq_true, Bool.or_eq_true, beq_iff_eq] at hcond
      exact ⟨ha, hcond.1, hcond.2⟩
    · rintro ⟨ha, h1, h2⟩
      refine ⟨ha, ?_⟩
      simp only [Bool.and_eq_true, Bool.or_eq_true, beq_iff_eq]
      exact ⟨h1, h2⟩
  · unfold filteredAtividades
    rw [List.filter_eq_self]
    intro a ha
    simp

/-- Witness for C10: the fixture activity passes its own turma and status
filters. -/
theorem filteredAtividades_correct_witness :
    caEx ∈ filteredAtividades [caEx] "t1" "ativa" :=
  ((filteredAtividades_correct [caEx] "t1" "ativa").1 caEx).mpr
    ⟨List.mem_singleton.mpr rfl, Or.inr rfl, Or.inr rfl⟩

end ProfessorAid
